import Mathlib

/-! Cursor layer of the storage engine (src/mongo/db/cursor.cpp)

A shallow embedding of the bound resolver (ScanCursor), the index-scan
cursor, the partitioned cursor and the cursor factory (BasicCursor::make),
followed by the properties proved about them.

Types that cursor.cpp only uses (BSONObj with its woCompare, Ordering,
NamespaceDetails, IndexDetails, IndexCursor, DummyCursor, nsdetails, the
matcher and the keys-only projection) are declared in other files of the
repository; they are modelled here from the specification and
marked as such.
-/

namespace mongo

/-! ## Collaborators declared outside cursor.cpp -/

/-- Modelled from the spec: the values a key field can hold. The header that
declares BSON values is missing; the spec only requires a key space with an
absolute minimum and an absolute maximum, and key patterns whose fields
carry a signed direction such as 1 or -1. -/
inductive BSONValue where
  | minKey
  | number (n : Int)
  | str (s : String)
  | maxKey
  deriving DecidableEq, Repr

/-- Modelled from the spec: one named field of a document or key (the BSON
declarations are missing). -/
structure BSONElement where
  fieldName : String
  value : BSONValue
  deriving DecidableEq, Repr

/-- Modelled from the spec: BSONObj, an ordered field list (the BSON
declarations are missing). Key patterns, keys and rows are all of this type,
as in the signatures of cursor.cpp. -/
abbrev BSONObj := List BSONElement

/-- Modelled from the spec: the global sentinel for the absolute minimum
possible key (its definition is missing). -/
def minKey : BSONObj := [⟨"", BSONValue.minKey⟩]

/-- Modelled from the spec: the global sentinel for the absolute maximum
possible key (its definition is missing). -/
def maxKey : BSONObj := [⟨"", BSONValue.maxKey⟩]

/-- Modelled from the spec: a key-pattern field sorts descending when its
direction is negative, as in the scenarios {a: -1} against {a: 1}. -/
def BSONElement.isDescending (e : BSONElement) : Bool :=
  match e.value with
  | BSONValue.number n => decide (n < 0)
  | _ => false

/-- Modelled from the spec: Ordering, an immutable value built from a key
pattern that records, per field, whether the field sorts descending
(ordering.h is missing). -/
structure Ordering where
  descFlags : List Bool
  deriving DecidableEq, Repr

/-- Modelled from the spec: Ordering::make builds the Ordering of a key
pattern (ordering.h is missing). -/
def Ordering.make (keyPattern : BSONObj) : Ordering :=
  ⟨keyPattern.map BSONElement.isDescending⟩

/-- Modelled from the spec: Ordering::descending answers, per 1-based field
position, whether that field sorts descending (ordering.h is missing). A
position with no field is not descending. -/
def Ordering.descending (o : Ordering) : Nat → Bool
  | 0 => false
  | i + 1 => o.descFlags.getD i false

/-! ## ScanCursor: the bound resolver (cursor.cpp lines 27-45) -/

/-- ScanCursor::reverseMinMaxBoundsOrder: the bounds are reversed when
exactly one of the index order and the scan direction is descending. -/
def ScanCursor.reverseMinMaxBoundsOrder (ordering : Ordering) (direction : Int) : Bool :=
  let ascending : Bool := !ordering.descending 1
  let forward : Bool := decide (direction > 0)
  ascending != forward

/-- ScanCursor::startKey. -/
def ScanCursor.startKey (keyPattern : BSONObj) (direction : Int) : BSONObj :=
  if ScanCursor.reverseMinMaxBoundsOrder (Ordering.make keyPattern) direction then maxKey
  else minKey

/-- ScanCursor::endKey. -/
def ScanCursor.endKey (keyPattern : BSONObj) (direction : Int) : BSONObj :=
  if ScanCursor.reverseMinMaxBoundsOrder (Ordering.make keyPattern) direction then minKey
  else maxKey

/-- The orientation of the first field of a key pattern, read off the
pattern itself: ascending unless the first field is descending. A pattern
with no field has nothing descending. -/
def firstFieldAscending : BSONObj → Bool
  | [] => true
  | e :: _ => !e.isDescending

/-! ## Namespace metadata and the ordered-index engine (external) -/

/-- Modelled from the spec: IndexDetails, the descriptor of one index; the
cursor layer reads its key pattern (its declaration is missing). -/
structure IndexDetails where
  indexName : String
  keyPattern : BSONObj
  deriving DecidableEq, Repr

/-- IndexDetails::keyPattern. -/
def IndexDetails.getKeyPattern (idx : IndexDetails) : BSONObj := idx.keyPattern

/-- Modelled from the spec: NamespaceDetails, the namespace descriptor: its
name, whether it is partitioned, and its primary-key index
(namespace_details.h is missing). -/
structure NamespaceDetails where
  ns : String
  partitioned : Bool
  pkIndex : IndexDetails
  deriving DecidableEq, Repr

/-- NamespaceDetails::getPKIndex. -/
def NamespaceDetails.getPKIndex (d : NamespaceDetails) : IndexDetails := d.pkIndex

/-- Modelled from the spec: one row as the ordered-index engine delivers it:
the index key, the primary key and the document. -/
structure Row where
  key : BSONObj
  pk : BSONObj
  obj : BSONObj
  deriving DecidableEq, Repr

/-- Modelled from the spec: the two external collaborators of section 6.
The catalog is the namespace metadata (finitely many descriptors); scan is
the ordered-index engine's bounded, directional iterator, given namespace,
index, start key, end key, end-inclusive flag, direction and the cap on the
result count, and answering with the rows it will deliver, in order. -/
structure Storage where
  catalog : List NamespaceDetails
  scan : NamespaceDetails → IndexDetails → BSONObj → BSONObj → Bool → Int → Int → List Row

/-- Modelled from the spec: nsdetails resolves a namespace name to its
descriptor, or to null (none) when there is no such namespace
(namespace_details.h is missing). -/
def Storage.nsdetails (st : Storage) (ns : String) : Option NamespaceDetails :=
  st.catalog.find? (fun d => d.ns == ns)

/-- The length of the longest namespace name in the catalog; it bounds the
depth of nested partition lookups. -/
def Storage.maxNsLength (st : Storage) : Nat :=
  (st.catalog.map (fun d => d.ns.length)).foldr max 0

/-- Modelled from the spec: the fatal assertions of the cursor layer: a
failed verify, or msgasserted with its code and message (assert_util.h is
missing). -/
inductive AssertionException where
  | verifyFailed
  | msgasserted (code : Nat) (msg : String)
  deriving DecidableEq, Repr

/-! ## Cursors -/

/-- Modelled from the spec: DummyCursor, the null cursor returned for an
absent namespace; it only remembers its direction (cursor.h is missing). -/
structure DummyCursor where
  direction : Int
  deriving DecidableEq, Repr

/-- Modelled from the spec: the DummyCursor constructor. -/
def DummyCursor.new (direction : Int) : DummyCursor := ⟨direction⟩

/-- Modelled from the spec: the null cursor reports immediately exhausted. -/
def DummyCursor.ok (_c : DummyCursor) : Bool := false

/-- Modelled from the spec: advancing the null cursor moves nowhere and
returns the new ok(), false. -/
def DummyCursor.advance (c : DummyCursor) : DummyCursor × Bool := (c, c.ok)

/-- Modelled from the spec: IndexCursor, the cursor over one physical index
(its class is missing). It keeps the constructor arguments (the resolved
bounds are immutable), the Ordering of the index and the rows the engine
still has to deliver, the first of which is the current row. -/
structure IndexCursor where
  d : NamespaceDetails
  idx : IndexDetails
  startKey : BSONObj
  endKey : BSONObj
  endKeyInclusive : Bool
  direction : Int
  numWanted : Int
  ordering : Ordering
  pending : List Row
  deriving DecidableEq, Repr

/-- Modelled from the spec: the IndexCursor constructor hands the bounds, the
end-inclusive flag, the direction and the cap to the engine's iterator. -/
def IndexCursor.new (st : Storage) (d : NamespaceDetails) (idx : IndexDetails)
    (startKey endKey : BSONObj) (endKeyInclusive : Bool) (direction : Int)
    (numWanted : Int) : IndexCursor :=
  { d := d, idx := idx, startKey := startKey, endKey := endKey,
    endKeyInclusive := endKeyInclusive, direction := direction, numWanted := numWanted,
    ordering := Ordering.make idx.getKeyPattern,
    pending := st.scan d idx startKey endKey endKeyInclusive direction numWanted }

/-- Modelled from the spec: ok() of an index cursor, whether it is positioned
on a valid row. -/
def IndexCursor.ok (c : IndexCursor) : Bool := !c.pending.isEmpty

/-- Modelled from the spec: advance() of an index cursor moves to the next
row in its direction and returns the new ok(). -/
def IndexCursor.advance (c : IndexCursor) : IndexCursor × Bool :=
  let c1 := { c with pending := c.pending.tail }
  (c1, c1.ok)

/-- IndexScanCursor is an IndexCursor with no state of its own. -/
abbrev IndexScanCursor := IndexCursor

/-- Modelled from the spec: the default of the numWanted parameter of the
IndexScanCursor constructor (cursor.h is missing): no cap on the count. -/
def IndexScanCursor.defaultNumWanted : Int := 0

/-- IndexScanCursor::IndexScanCursor (cursor.cpp lines 47-53). -/
def IndexScanCursor.new (st : Storage) (d : NamespaceDetails) (idx : IndexDetails)
    (direction : Int) (numWanted : Int) : IndexScanCursor :=
  IndexCursor.new st d idx
    (ScanCursor.startKey idx.getKeyPattern direction)
    (ScanCursor.endKey idx.getKeyPattern direction)
    true direction numWanted

/-- BasicCursor is an IndexScanCursor with no state of its own. -/
abbrev BasicCursor := IndexScanCursor

/-- BasicCursor::BasicCursor (cursor.cpp lines 158-160). -/
def BasicCursor.new (st : Storage) (d : NamespaceDetails) (direction : Int) : BasicCursor :=
  IndexScanCursor.new st d d.getPKIndex direction IndexScanCursor.defaultNumWanted

mutual
/-- The cursor variants the factory can return (shared_ptr to Cursor). -/
inductive Cursor where
  | dummy (c : DummyCursor)
  | basic (c : BasicCursor)
  | partitioned (c : PartitionedCursor)
/-- PartitionedCursor (cursor.cpp lines 68-144): its four members. -/
inductive PartitionedCursor where
  | mk (d : NamespaceDetails) (currentCursor : Cursor) (direction : Int) (ok : Bool)
end

/-- Member _d. -/
def PartitionedCursor.d : PartitionedCursor → NamespaceDetails
  | .mk d _ _ _ => d

/-- Member _currentCursor. -/
def PartitionedCursor.currentCursor : PartitionedCursor → Cursor
  | .mk _ c _ _ => c

/-- Member _direction. -/
def PartitionedCursor.direction : PartitionedCursor → Int
  | .mk _ _ dir _ => dir

/-- PartitionedCursor::ok (cursor.cpp lines 84-86): member _ok. -/
def PartitionedCursor.ok : PartitionedCursor → Bool
  | .mk _ _ _ ok => ok

/-- Cursor::ok, dispatched on the variant. -/
def Cursor.ok : Cursor → Bool
  | .dummy c => c.ok
  | .basic c => IndexCursor.ok c
  | .partitioned c => c.ok

mutual
/-- Cursor::advance, dispatched on the variant; the new state of the cursor
comes with the returned value. -/
def Cursor.advance : Cursor → Cursor × Bool
  | .dummy c => (Cursor.dummy c.advance.1, c.advance.2)
  | .basic c => (Cursor.basic (IndexCursor.advance c).1, (IndexCursor.advance c).2)
  | .partitioned c => (Cursor.partitioned (PartitionedCursor.advance c).1,
      (PartitionedCursor.advance c).2)
/-- PartitionedCursor::advance (cursor.cpp lines 92-99). -/
def PartitionedCursor.advance : PartitionedCursor → PartitionedCursor × Bool
  | .mk d currentCursor direction ok =>
    let r := Cursor.advance currentCursor
    let advanced : Bool := r.2
    let ok1 : Bool := if !advanced then false else ok
    (PartitionedCursor.mk d r.1 direction ok1, ok1)
end

/-- The name of partition n of a namespace: ns, then ".$", then n
(cursor.cpp line 76). -/
def partitionNS (ns : String) (n : Nat) : String :=
  ns ++ ".$" ++ toString n

/-- A descriptor found by nsdetails carries the name that was looked up. -/
theorem Storage.nsdetails_ns {st : Storage} {ns : String} {d : NamespaceDetails}
    (h : st.nsdetails ns = some d) : d.ns = ns := by
  have h1 := List.find?_some h
  simpa using h1

/-- A descriptor found by nsdetails is one of the catalog. -/
theorem Storage.nsdetails_mem {st : Storage} {ns : String} {d : NamespaceDetails}
    (h : st.nsdetails ns = some d) : d ∈ st.catalog :=
  List.mem_of_find?_eq_some h

/-- No name of the catalog is longer than maxNsLength. -/
theorem Storage.length_le_maxNsLength {cat : List NamespaceDetails} {d : NamespaceDetails}
    (h : d ∈ cat) : d.ns.length ≤ (cat.map (fun d => d.ns.length)).foldr max 0 := by
  induction cat with
  | nil => cases h
  | cons a t ih =>
    simp only [List.map_cons, List.foldr_cons]
    rcases List.mem_cons.mp h with h1 | h1
    · subst h1
      exact le_max_left _ _
    · exact le_trans (ih h1) (le_max_right _ _)

/-- The name of a partition is longer than the name of its namespace. -/
theorem partitionNS_length (ns : String) : (partitionNS ns 0).length = ns.length + 3 := by
  simp [partitionNS, String.length_append]
  rfl

/-- The measure under which the factory and the partitioned constructor
call each other: the room left for a longer name in the catalog. -/
def factoryMeasure (st : Storage) (d : Option NamespaceDetails) (k : Nat) : Nat :=
  match d with
  | none => 0
  | some d => 2 * (st.maxNsLength - d.ns.length) + k

/-- Looking up partition 0 of a descriptor leaves less room. -/
theorem factoryMeasure_partition (st : Storage) (d : NamespaceDetails) :
    factoryMeasure st (st.nsdetails (partitionNS d.ns 0)) 2 < factoryMeasure st (some d) 1 := by
  cases h : st.nsdetails (partitionNS d.ns 0) with
  | none => simp [factoryMeasure]
  | some d1 =>
    have h1 := Storage.nsdetails_ns h
    have h2 : d1.ns.length ≤ st.maxNsLength :=
      Storage.length_le_maxNsLength (Storage.nsdetails_mem h)
    have h3 : d1.ns.length = d.ns.length + 3 := by rw [h1, partitionNS_length]
    simp only [factoryMeasure]
    omega

mutual
/-- PartitionedCursor::PartitionedCursor (cursor.cpp lines 70-80); d is a
pointer, and verify(_d) fails on null. -/
def PartitionedCursor.new (st : Storage) (d : Option NamespaceDetails) (direction : Int) :
    Except AssertionException PartitionedCursor :=
  match d with
  | none => Except.error AssertionException.verifyFailed
  | some d =>
    let firstPartitionNS : String := partitionNS d.ns 0
    let currentNS : Option NamespaceDetails := st.nsdetails firstPartitionNS
    match BasicCursor.make st currentNS direction with
    | Except.error e => Except.error e
    | Except.ok currentCursor =>
      Except.ok (PartitionedCursor.mk d currentCursor direction currentCursor.ok)
termination_by factoryMeasure st d 1
decreasing_by
  exact factoryMeasure_partition st d
/-- BasicCursor::make (cursor.cpp lines 146-156): the cursor factory. -/
def BasicCursor.make (st : Storage) (d : Option NamespaceDetails) (direction : Int) :
    Except AssertionException Cursor :=
  match d with
  | some d =>
    if d.partitioned then
      match PartitionedCursor.new st (some d) direction with
      | Except.error e => Except.error e
      | Except.ok c => Except.ok (Cursor.partitioned c)
    else
      Except.ok (Cursor.basic (BasicCursor.new st d direction))
  | none => Except.ok (Cursor.dummy (DummyCursor.new direction))
termination_by factoryMeasure st d 2
decreasing_by
  simp [factoryMeasure]
end

/-! ## Vocabulary of the specification -/

/-- The three cursor variants of the factory. -/
inductive CursorKind where
  | dummy
  | basic
  | partitioned
  deriving DecidableEq, Repr

/-- The variant of a cursor. -/
def Cursor.kind : Cursor → CursorKind
  | .dummy _ => CursorKind.dummy
  | .basic _ => CursorKind.basic
  | .partitioned _ => CursorKind.partitioned

/-- The dispatch of section 4.5 in the words of the specification: an absent
descriptor gives the null cursor, a partitioned one the partitioned cursor,
any other the primary-key cursor. -/
def factoryVariant : Option NamespaceDetails → CursorKind
  | none => CursorKind.dummy
  | some d => if d.partitioned then CursorKind.partitioned else CursorKind.basic

/-- The first row, if any, that the engine delivers for the whole-index scan
of the primary-key index of a namespace in a direction. -/
def Storage.firstRow (st : Storage) (p : NamespaceDetails) (direction : Int) : Option Row :=
  (st.scan p p.getPKIndex
    (ScanCursor.startKey p.getPKIndex.getKeyPattern direction)
    (ScanCursor.endKey p.getPKIndex.getKeyPattern direction)
    true direction IndexScanCursor.defaultNumWanted).head?

/-- The partitioned cursor after n calls of advance(). -/
def PartitionedCursor.advanceTimes : Nat → PartitionedCursor → PartitionedCursor
  | 0, c => c
  | n + 1, c => PartitionedCursor.advanceTimes n c.advance.1

/-- A sample index: the primary key {_id: 1}. -/
def sampleIndex : IndexDetails := ⟨"primaryKey", [⟨"_id", BSONValue.number 1⟩]⟩

/-- A sample partitioned namespace t. -/
def sampleParent : NamespaceDetails := ⟨"t", true, sampleIndex⟩

/-- A sample plain namespace, the partition 0 of t. -/
def samplePartition : NamespaceDetails := ⟨"t.$0", false, sampleIndex⟩

/-- A sample row with primary key 7. -/
def sampleRow : Row :=
  ⟨[⟨"", BSONValue.number 7⟩], [⟨"", BSONValue.number 7⟩], [⟨"_id", BSONValue.number 7⟩]⟩

/-- A sample storage: the namespaces t and t.$0, every scan delivering two
rows. -/
def sampleStorage : Storage :=
  ⟨[sampleParent, samplePartition], fun _ _ _ _ _ _ _ => [sampleRow, sampleRow]⟩

/-- A sample index cursor over t.$0 with two rows to deliver. -/
def sampleBasic : BasicCursor := BasicCursor.new sampleStorage samplePartition 1

/-- A sample partitioned cursor that is exhausted while its sub-cursor still
has rows. -/
def sampleExhausted : PartitionedCursor :=
  PartitionedCursor.mk sampleParent (Cursor.basic sampleBasic) 1 false

/-- A sample partitioned cursor that is active on the first of two rows. -/
def sampleActive : PartitionedCursor :=
  PartitionedCursor.mk sampleParent (Cursor.basic sampleBasic) 1 true

/-! ## The debug check of the index-scan cursor (cursor.cpp lines 55-66) -/

/-- Modelled from the spec: the comparison of two key values, negative, zero
or positive (the BSON declarations are missing): the minimum sentinel value
is below every other value, the maximum sentinel value above every other,
numbers are below strings, and two numbers or two strings compare by
value. -/
def BSONValue.woCompare : BSONValue → BSONValue → Int
  | .minKey, .minKey => 0
  | .minKey, _ => -1
  | _, .minKey => 1
  | .maxKey, .maxKey => 0
  | .maxKey, _ => 1
  | _, .maxKey => -1
  | .number a, .number b => if a < b then -1 else if a = b then 0 else 1
  | .number _, .str _ => -1
  | .str _, .number _ => 1
  | .str a, .str b => if a < b then -1 else if a = b then 0 else 1

/-- Modelled from the spec: BSONObj::woCompare from a field position on: the
keys compare field by field, a field the Ordering marks descending compares
reversed, and a key that runs out of fields first is the smaller. -/
def BSONObj.woCompareFrom (o : Ordering) : Nat → BSONObj → BSONObj → Int
  | _, [], [] => 0
  | _, [], _ :: _ => -1
  | _, _ :: _, [] => 1
  | i, l :: ls, r :: rs =>
    let x : Int := l.value.woCompare r.value
    let y : Int := if o.descending i then -x else x
    if y ≠ 0 then y else BSONObj.woCompareFrom o (i + 1) ls rs

/-- Modelled from the spec: BSONObj::woCompare, the ordering-aware comparison
of two keys (the BSON declarations are missing); positions count from 1. -/
def BSONObj.woCompare (l r : BSONObj) (o : Ordering) : Int :=
  BSONObj.woCompareFrom o 1 l r

/-- Modelled from the spec: member _currKey of an index cursor, the index key
of the current row, empty when the cursor is exhausted. -/
def IndexCursor.currKey (c : IndexCursor) : BSONObj :=
  match c.pending with
  | [] => []
  | r :: _ => r.key

/-- Modelled from the spec: currPK() of an index cursor, the primary key of
the current row, empty when the cursor is exhausted. -/
def IndexCursor.currPK (c : IndexCursor) : BSONObj :=
  match c.pending with
  | [] => []
  | r :: _ => r.pk

/-- Modelled from the spec: current() of an index cursor, the current row,
empty when the cursor is exhausted. -/
def IndexCursor.current (c : IndexCursor) : BSONObj :=
  match c.pending with
  | [] => []
  | r :: _ => r.obj

/-- The message of the fatal assertion 17202. -/
def IndexScanCursor.badCombination : AssertionException :=
  AssertionException.msgasserted 17202 "IndexScanCursor has a bad currKey/endKey combination"

/-- IndexScanCursor::checkEnd (cursor.cpp lines 55-66). The flag dev says
whether the build has the DEV block enabled. -/
def IndexScanCursor.checkEnd (dev : Bool) (c : IndexScanCursor) :
    Except AssertionException Unit :=
  if dev then
    if c.endKey.isEmpty then Except.error AssertionException.verifyFailed
    else
      let cmp : Int := BSONObj.woCompare c.endKey c.currKey c.ordering
      let sign : Int := if cmp = 0 then 0 else (if cmp > 0 then 1 else -1)
      if (sign ≠ 0 ∧ sign ≠ c.direction) ∨ (sign = 0 ∧ c.endKeyInclusive = false) then
        Except.error IndexScanCursor.badCombination
      else Except.ok ()
  else Except.ok ()

/-- The sign of an integer: -1, 0 or +1. -/
def signOf (n : Int) : Int :=
  if n = 0 then 0 else (if n > 0 then 1 else -1)

/-- The consistent state of section 4.2 in the words of the specification:
the sign of the comparison between end key and current key equals the sign
of the scan direction, or that sign is 0 and the end bound is inclusive. -/
def IndexScanCursor.consistent (c : IndexScanCursor) : Prop :=
  signOf (BSONObj.woCompare c.endKey c.currKey c.ordering) = signOf c.direction ∨
  (signOf (BSONObj.woCompare c.endKey c.currKey c.ordering) = 0 ∧ c.endKeyInclusive = true)

/-- The consistent state can be decided. -/
instance IndexScanCursor.decConsistent (c : IndexScanCursor) :
    Decidable (IndexScanCursor.consistent c) := by
  unfold IndexScanCursor.consistent
  exact inferInstance

/-- A sample index cursor over t.$0 opened with direction 2, on the first of
two rows. -/
def sampleStride : BasicCursor := BasicCursor.new sampleStorage samplePartition 2

/-- A sample storage in which the partitioned namespace t has no partition
0: the catalog holds t alone. -/
def orphanStorage : Storage :=
  ⟨[sampleParent], fun _ _ _ _ _ _ _ => [sampleRow, sampleRow]⟩

/-- A sample descriptor for t.$0 that is itself partitioned. -/
def nestedPartition : NamespaceDetails := ⟨"t.$0", true, sampleIndex⟩

/-- A sample storage in which partition 0 of t is itself partitioned and has
no partition 0 of its own. -/
def nestedStorage : Storage :=
  ⟨[sampleParent, nestedPartition], fun _ _ _ _ _ _ _ => [sampleRow, sampleRow]⟩

/-! ## The remaining operations of the partitioned cursor (cursor.cpp lines 88-138) -/

/-- Modelled from the spec: the null cursor has no current row (cursor.h is
missing). -/
def DummyCursor.current (_c : DummyCursor) : BSONObj := []

/-- Modelled from the spec: the null cursor has no current index key. -/
def DummyCursor.currKey (_c : DummyCursor) : BSONObj := []

/-- Modelled from the spec: the null cursor has no current primary key. -/
def DummyCursor.currPK (_c : DummyCursor) : BSONObj := []

mutual
/-- Cursor::current, dispatched on the variant. -/
def Cursor.current : Cursor → BSONObj
  | .dummy c => c.current
  | .basic c => IndexCursor.current c
  | .partitioned c => PartitionedCursor.current c
/-- PartitionedCursor::current (cursor.cpp lines 88-90). -/
def PartitionedCursor.current : PartitionedCursor → BSONObj
  | .mk _ currentCursor _ _ => Cursor.current currentCursor
end

mutual
/-- Cursor::currKey, dispatched on the variant. -/
def Cursor.currKey : Cursor → BSONObj
  | .dummy c => c.currKey
  | .basic c => IndexCursor.currKey c
  | .partitioned c => PartitionedCursor.currKey c
/-- PartitionedCursor::currKey (cursor.cpp lines 101-103). -/
def PartitionedCursor.currKey : PartitionedCursor → BSONObj
  | .mk _ currentCursor _ _ => Cursor.currKey currentCursor
end

mutual
/-- Cursor::currPK, dispatched on the variant. -/
def Cursor.currPK : Cursor → BSONObj
  | .dummy c => c.currPK
  | .basic c => IndexCursor.currPK c
  | .partitioned c => PartitionedCursor.currPK c
/-- PartitionedCursor::currPK (cursor.cpp lines 105-107). -/
def PartitionedCursor.currPK : PartitionedCursor → BSONObj
  | .mk _ currentCursor _ _ => Cursor.currPK currentCursor
end

/-- Modelled from the spec: CoveredIndexMatcher, a row matcher that can be
attached to a cursor (its declaration is missing); the partitioned cursor
never looks inside. -/
structure CoveredIndexMatcher where
  pattern : BSONObj
  deriving DecidableEq, Repr

/-- Modelled from the spec: Projection::KeyOnly, a keys-only projection that
can be attached to a cursor (its declaration is missing); the partitioned
cursor never looks inside. -/
structure KeyOnly where
  fields : List String
  deriving DecidableEq, Repr

/-- PartitionedCursor::setTailable (cursor.cpp lines 109-111): empty body. -/
def PartitionedCursor.setTailable (c : PartitionedCursor) : PartitionedCursor := c

/-- PartitionedCursor::tailable (cursor.cpp lines 112-114). -/
def PartitionedCursor.tailable (_c : PartitionedCursor) : Bool := false

/-- PartitionedCursor::toString (cursor.cpp line 116). -/
def PartitionedCursor.toString (_c : PartitionedCursor) : String := "PartitionedCursor"

/-- PartitionedCursor::getsetdup (cursor.cpp lines 118-120): not const, and
nothing is recorded. -/
def PartitionedCursor.getsetdup (c : PartitionedCursor) (_pk : BSONObj) :
    PartitionedCursor × Bool := (c, false)

/-- PartitionedCursor::isMultiKey (cursor.cpp lines 121-123). -/
def PartitionedCursor.isMultiKey (_c : PartitionedCursor) : Bool := false

/-- PartitionedCursor::modifiedKeys (cursor.cpp lines 124-126). -/
def PartitionedCursor.modifiedKeys (_c : PartitionedCursor) : Bool := false

/-- PartitionedCursor::nscanned (cursor.cpp lines 128-130). -/
def PartitionedCursor.nscanned (_c : PartitionedCursor) : Int := 0

/-- PartitionedCursor::setMatcher (cursor.cpp lines 132-134): empty body; the
shared pointer may be null. -/
def PartitionedCursor.setMatcher (c : PartitionedCursor)
    (_matcher : Option CoveredIndexMatcher) : PartitionedCursor := c

/-- PartitionedCursor::setKeyFieldsOnly (cursor.cpp lines 136-138): empty
body; the shared pointer may be null. -/
def PartitionedCursor.setKeyFieldsOnly (c : PartitionedCursor)
    (_keyFieldsOnly : Option KeyOnly) : PartitionedCursor := c

/-- The partitioned cursor after n calls of setTailable(). -/
def PartitionedCursor.setTailableTimes : Nat → PartitionedCursor → PartitionedCursor
  | 0, c => c
  | n + 1, c => PartitionedCursor.setTailableTimes n c.setTailable

/-! ## The partitioned cursor over an arbitrary sub-cursor -/

/-- The Cursor interface as the partitioned cursor uses its sub-cursor
(a shared_ptr to Cursor): any implementation, given by its state and its
virtual ok() and advance(). -/
structure CursorImpl (σ : Type) where
  ok : σ → Bool
  advance : σ → σ × Bool

/-- The sub-cursor's advance() returns the sub-cursor's own new ok(). -/
def CursorImpl.advanceReturnsOk {σ : Type} (I : CursorImpl σ) : Prop :=
  ∀ s : σ, (I.advance s).2 = I.ok (I.advance s).1

/-- The four members of PartitionedCursor, the sub-cursor being of any
implementation. -/
structure PartitionedOver (σ : Type) where
  d : NamespaceDetails
  currentCursor : σ
  direction : Int
  ok : Bool

/-- The end of the constructor (cursor.cpp lines 78-79), with the sub-cursor
the factory returned: _ok is set to ok() of the sub-cursor. -/
def PartitionedOver.new {σ : Type} (I : CursorImpl σ) (d : NamespaceDetails) (currentCursor : σ)
    (direction : Int) : PartitionedOver σ :=
  ⟨d, currentCursor, direction, I.ok currentCursor⟩

/-- PartitionedCursor::advance (cursor.cpp lines 92-99) over any sub-cursor
implementation. -/
def PartitionedOver.advance {σ : Type} (I : CursorImpl σ) (c : PartitionedOver σ) :
    PartitionedOver σ × Bool :=
  let r := I.advance c.currentCursor
  let advanced : Bool := r.2
  let ok1 : Bool := if !advanced then false else c.ok
  (⟨c.d, r.1, c.direction, ok1⟩, ok1)

/-- The states a partitioned cursor over a sub-cursor implementation can be
in: the state the constructor leaves, and every state advance() leads to. -/
inductive PartitionedOver.Reachable {σ : Type} (I : CursorImpl σ) : PartitionedOver σ → Prop where
  | constructed (d : NamespaceDetails) (sub : σ) (direction : Int) :
      PartitionedOver.Reachable I (PartitionedOver.new I d sub direction)
  | advanced (c : PartitionedOver σ) :
      PartitionedOver.Reachable I c → PartitionedOver.Reachable I (PartitionedOver.advance I c).1

/-- The cursor variants of the factory as an implementation of the
interface. -/
def Cursor.impl : CursorImpl Cursor := ⟨Cursor.ok, Cursor.advance⟩

/-- A partitioned cursor of the factory, seen as a partitioned cursor over
the implementation Cursor.impl. -/
def PartitionedCursor.toOver : PartitionedCursor → PartitionedOver Cursor
  | .mk d currentCursor direction ok => ⟨d, currentCursor, direction, ok⟩

/-- The states a partitioned cursor made by the factory can be in: the state
the factory returns it in, and every state one of its operations that can
write leads to. -/
inductive PartitionedCursor.Reachable (st : Storage) : PartitionedCursor → Prop where
  | made (d : NamespaceDetails) (direction : Int) (c : PartitionedCursor) :
      BasicCursor.make st (some d) direction = Except.ok (Cursor.partitioned c) →
      PartitionedCursor.Reachable st c
  | advanced (c : PartitionedCursor) :
      PartitionedCursor.Reachable st c → PartitionedCursor.Reachable st c.advance.1
  | tailableSet (c : PartitionedCursor) :
      PartitionedCursor.Reachable st c → PartitionedCursor.Reachable st c.setTailable
  | matcherSet (c : PartitionedCursor) (m : Option CoveredIndexMatcher) :
      PartitionedCursor.Reachable st c → PartitionedCursor.Reachable st (c.setMatcher m)
  | keyFieldsOnlySet (c : PartitionedCursor) (p : Option KeyOnly) :
      PartitionedCursor.Reachable st c → PartitionedCursor.Reachable st (c.setKeyFieldsOnly p)
  | dupAsked (c : PartitionedCursor) (pk : BSONObj) :
      PartitionedCursor.Reachable st c → PartitionedCursor.Reachable st (c.getsetdup pk).1

/-- A sub-cursor implementation that follows a script: the state lists what
ok() will report now and after each further advance(); past the end of the
script it reports false. Its advance() returns its new ok(). -/
def scriptedImpl : CursorImpl (List Bool) :=
  ⟨fun s => s.headD false, fun s => (s.tail, s.tail.headD false)⟩

/-- A partitioned cursor over a scripted sub-cursor that is positioned, then
exhausted, then positioned again, after two calls of advance(). -/
def scriptedRevived : PartitionedOver (List Bool) :=
  (PartitionedOver.advance scriptedImpl
    (PartitionedOver.advance scriptedImpl
      (PartitionedOver.new scriptedImpl sampleParent [true, false, true] 1)).1).1

/-! ## Properties of the bound resolver -/

/-- The two sentinels are different keys. -/
theorem minKey_ne_maxKey : minKey ≠ maxKey := by decide

/-- What the source computes from the Ordering is the orientation of the
first field of the key pattern. -/
theorem not_descending_one_eq (keyPattern : BSONObj) :
    (!(Ordering.make keyPattern).descending 1) = firstFieldAscending keyPattern := by
  cases keyPattern with
  | nil => rfl
  | cons e t => rfl

/-- The bounds are reversed exactly when the orientation of the first field
differs from the scan being forward. -/
theorem reverse_eq (keyPattern : BSONObj) (direction : Int) :
    ScanCursor.reverseMinMaxBoundsOrder (Ordering.make keyPattern) direction
      = (firstFieldAscending keyPattern != decide (direction > 0)) := by
  simp only [ScanCursor.reverseMinMaxBoundsOrder, not_descending_one_eq]

/-- C1: for every key pattern and every integer direction, startKey is maxKey
and endKey is minKey exactly when the orientation of the first field
(ascending or not) differs from the direction being positive; otherwise
startKey is minKey and endKey is maxKey. In particular a positive direction
gives (minKey, maxKey) on an ascending first field and (maxKey, minKey) on a
descending one. -/
theorem startKey_endKey_reversed_iff (keyPattern : BSONObj) (direction : Int) :
    ((ScanCursor.startKey keyPattern direction = maxKey ∧
        ScanCursor.endKey keyPattern direction = minKey)
      ↔ firstFieldAscending keyPattern ≠ decide (direction > 0)) ∧
    ((ScanCursor.startKey keyPattern direction = minKey ∧
        ScanCursor.endKey keyPattern direction = maxKey)
      ↔ firstFieldAscending keyPattern = decide (direction > 0)) ∧
    (0 < direction → firstFieldAscending keyPattern = true →
      ScanCursor.startKey keyPattern direction = minKey ∧
        ScanCursor.endKey keyPattern direction = maxKey) ∧
    (0 < direction → firstFieldAscending keyPattern = false →
      ScanCursor.startKey keyPattern direction = maxKey ∧
        ScanCursor.endKey keyPattern direction = minKey) := by
  have hne : minKey ≠ maxKey := minKey_ne_maxKey
  simp only [ScanCursor.startKey, ScanCursor.endKey, reverse_eq]
  cases hA : firstFieldAscending keyPattern <;> by_cases hd : direction > 0 <;>
    simp [hd, hne, hne.symm]

/-- C1, at a concrete input: the key pattern {a: -1} scanned with direction 3. -/
theorem startKey_endKey_reversed_iff_witness :
    (0 : Int) < 3 ∧ firstFieldAscending [⟨"a", BSONValue.number (-1)⟩] = false ∧
    ScanCursor.startKey [⟨"a", BSONValue.number (-1)⟩] 3 = maxKey ∧
    ScanCursor.endKey [⟨"a", BSONValue.number (-1)⟩] 3 = minKey :=
  ⟨by decide, rfl,
    (startKey_endKey_reversed_iff [⟨"a", BSONValue.number (-1)⟩] 3).2.2.2 (by decide) rfl⟩

/-- C2: for every key pattern and every integer direction, zero included,
exactly one of startKey and endKey is the minimum sentinel and the other is
the maximum sentinel, and the two results are never equal. -/
theorem startKey_endKey_one_each (keyPattern : BSONObj) (direction : Int) :
    ((ScanCursor.startKey keyPattern direction = minKey ∧
        ScanCursor.endKey keyPattern direction = maxKey ∧
        ScanCursor.startKey keyPattern direction ≠ maxKey ∧
        ScanCursor.endKey keyPattern direction ≠ minKey) ∨
      (ScanCursor.startKey keyPattern direction = maxKey ∧
        ScanCursor.endKey keyPattern direction = minKey ∧
        ScanCursor.startKey keyPattern direction ≠ minKey ∧
        ScanCursor.endKey keyPattern direction ≠ maxKey)) ∧
    ScanCursor.startKey keyPattern direction ≠ ScanCursor.endKey keyPattern direction := by
  have hne : minKey ≠ maxKey := minKey_ne_maxKey
  simp only [ScanCursor.startKey, ScanCursor.endKey]
  cases ScanCursor.reverseMinMaxBoundsOrder (Ordering.make keyPattern) direction <;>
    simp [hne, hne.symm]

/-- C3: for every key pattern, a negative direction dn and a positive
direction dp swap the bounds: startKey at dn is endKey at dp and endKey at
dn is startKey at dp. Hence a second key pattern whose first field has the
other orientation, scanned with dp, has the bounds of the first scanned with
dn. -/
theorem startKey_endKey_swap (keyPattern : BSONObj) (dn dp : Int)
    (hn : dn < 0) (hp : 0 < dp) :
    ScanCursor.startKey keyPattern dn = ScanCursor.endKey keyPattern dp ∧
    ScanCursor.endKey keyPattern dn = ScanCursor.startKey keyPattern dp ∧
    ∀ flipped : BSONObj, firstFieldAscending flipped = !firstFieldAscending keyPattern →
      ScanCursor.startKey flipped dp = ScanCursor.startKey keyPattern dn ∧
      ScanCursor.endKey flipped dp = ScanCursor.endKey keyPattern dn := by
  have h1 : ¬ dn > 0 := by omega
  have h2 : dp > 0 := hp
  simp only [ScanCursor.startKey, ScanCursor.endKey, reverse_eq]
  refine ⟨?_, ?_, ?_⟩
  · cases firstFieldAscending keyPattern <;> simp [h1, h2]
  · cases firstFieldAscending keyPattern <;> simp [h1, h2]
  · intro flipped hf
    rw [hf]
    cases firstFieldAscending keyPattern <;> simp [h1, h2]

/-- C3, at a concrete input: the key pattern {a: 1, b: -1} with directions
-2 and 5. -/
theorem startKey_endKey_swap_witness :
    (-2 : Int) < 0 ∧ (0 : Int) < 5 ∧
    ScanCursor.startKey [⟨"a", BSONValue.number 1⟩, ⟨"b", BSONValue.number (-1)⟩] (-2)
      = ScanCursor.endKey [⟨"a", BSONValue.number 1⟩, ⟨"b", BSONValue.number (-1)⟩] 5 ∧
    ScanCursor.endKey [⟨"a", BSONValue.number 1⟩, ⟨"b", BSONValue.number (-1)⟩] (-2)
      = ScanCursor.startKey [⟨"a", BSONValue.number 1⟩, ⟨"b", BSONValue.number (-1)⟩] 5 :=
  ⟨by decide, by decide,
    (startKey_endKey_swap [⟨"a", BSONValue.number 1⟩, ⟨"b", BSONValue.number (-1)⟩] (-2) 5
      (by decide) (by decide)).1,
    (startKey_endKey_swap [⟨"a", BSONValue.number 1⟩, ⟨"b", BSONValue.number (-1)⟩] (-2) 5
      (by decide) (by decide)).2.1⟩

/-- C4: the four scenarios: {a: 1} with +1 gives (minKey, maxKey), {a: -1}
with +1 gives (maxKey, minKey), {a: 1} with -1 gives (maxKey, minKey), and
{a: -1} with -1 gives (minKey, maxKey). -/
theorem startKey_endKey_scenarios :
    (ScanCursor.startKey [⟨"a", BSONValue.number 1⟩] 1 = minKey ∧
      ScanCursor.endKey [⟨"a", BSONValue.number 1⟩] 1 = maxKey) ∧
    (ScanCursor.startKey [⟨"a", BSONValue.number (-1)⟩] 1 = maxKey ∧
      ScanCursor.endKey [⟨"a", BSONValue.number (-1)⟩] 1 = minKey) ∧
    (ScanCursor.startKey [⟨"a", BSONValue.number 1⟩] (-1) = maxKey ∧
      ScanCursor.endKey [⟨"a", BSONValue.number 1⟩] (-1) = minKey) ∧
    (ScanCursor.startKey [⟨"a", BSONValue.number (-1)⟩] (-1) = minKey ∧
      ScanCursor.endKey [⟨"a", BSONValue.number (-1)⟩] (-1) = maxKey) := by
  decide

/-! ## Properties of the factory and of the partitioned cursor -/

/-- The factory on a null descriptor. -/
theorem BasicCursor.make_none (st : Storage) (direction : Int) :
    BasicCursor.make st none direction
      = Except.ok (Cursor.dummy (DummyCursor.new direction)) := by
  rw [BasicCursor.make]

/-- The factory on a descriptor that is not partitioned. -/
theorem BasicCursor.make_plain (st : Storage) (d : NamespaceDetails) (direction : Int)
    (h : d.partitioned = false) :
    BasicCursor.make st (some d) direction
      = Except.ok (Cursor.basic (BasicCursor.new st d direction)) := by
  rw [BasicCursor.make]
  simp [h]

/-- The factory on a partitioned descriptor hands over to the constructor of
the partitioned cursor. -/
theorem BasicCursor.make_partitioned (st : Storage) (d : NamespaceDetails) (direction : Int)
    (h : d.partitioned = true) :
    BasicCursor.make st (some d) direction
      = match PartitionedCursor.new st (some d) direction with
        | Except.error e => Except.error e
        | Except.ok c => Except.ok (Cursor.partitioned c) := by
  rw [BasicCursor.make]
  simp [h]

/-- The constructor of the partitioned cursor on a non-null descriptor. -/
theorem PartitionedCursor.new_some (st : Storage) (d : NamespaceDetails) (direction : Int) :
    PartitionedCursor.new st (some d) direction
      = match BasicCursor.make st (st.nsdetails (partitionNS d.ns 0)) direction with
        | Except.error e => Except.error e
        | Except.ok currentCursor =>
          Except.ok (PartitionedCursor.mk d currentCursor direction currentCursor.ok) := by
  rw [PartitionedCursor.new]

/-- The factory returns a cursor for every descriptor: the nested partition
lookups end because the catalog is finite. -/
theorem BasicCursor.make_returns (st : Storage) (direction : Int) :
    ∀ (n : Nat) (d : Option NamespaceDetails), factoryMeasure st d 2 ≤ n →
      ∃ c, BasicCursor.make st d direction = Except.ok c := by
  intro n
  induction n with
  | zero =>
    intro d hd
    cases d with
    | none => exact ⟨_, BasicCursor.make_none st direction⟩
    | some d => simp [factoryMeasure] at hd
  | succ n ih =>
    intro d hd
    cases d with
    | none => exact ⟨_, BasicCursor.make_none st direction⟩
    | some d =>
      cases hp : d.partitioned with
      | false => exact ⟨_, BasicCursor.make_plain st d direction hp⟩
      | true =>
        have hlt := factoryMeasure_partition st d
        have hd1 : factoryMeasure st (some d) 1 < factoryMeasure st (some d) 2 := by
          simp [factoryMeasure]
        obtain ⟨sub, hsub⟩ := ih (st.nsdetails (partitionNS d.ns 0)) (by omega)
        refine ⟨Cursor.partitioned (PartitionedCursor.mk d sub direction sub.ok), ?_⟩
        rw [BasicCursor.make_partitioned st d direction hp, PartitionedCursor.new_some, hsub]

/-- The factory returns a cursor for every descriptor and direction. -/
theorem BasicCursor.make_ok (st : Storage) (d : Option NamespaceDetails) (direction : Int) :
    ∃ c, BasicCursor.make st d direction = Except.ok c :=
  BasicCursor.make_returns st direction _ d (le_refl _)

/-- The factory on a partitioned descriptor, in terms of the cursor it opens
over partition 0. -/
theorem BasicCursor.make_partitioned_eq (st : Storage) (d : NamespaceDetails)
    (direction : Int) (h : d.partitioned = true) (sub : Cursor)
    (hsub : BasicCursor.make st (st.nsdetails (partitionNS d.ns 0)) direction = Except.ok sub) :
    BasicCursor.make st (some d) direction
      = Except.ok (Cursor.partitioned (PartitionedCursor.mk d sub direction sub.ok)) := by
  rw [BasicCursor.make_partitioned st d direction h, PartitionedCursor.new_some, hsub]

/-- C5: the factory is a total three-way dispatch decided by the descriptor
alone: it returns a cursor for every descriptor and direction; a null
descriptor gives the null cursor, a partitioned descriptor a partitioned
cursor wrapping that descriptor, any other descriptor the primary-key cursor
over it; and a second direction gives the same variant. -/
theorem make_dispatch (st : Storage) (d : Option NamespaceDetails) (direction : Int) :
    ∃ c, BasicCursor.make st d direction = Except.ok c ∧
      c.kind = factoryVariant d ∧
      (match d with
        | none => c = Cursor.dummy (DummyCursor.new direction)
        | some nd =>
          if nd.partitioned then ∃ pc, c = Cursor.partitioned pc ∧ pc.d = nd
          else c = Cursor.basic (BasicCursor.new st nd direction) ∧
            (BasicCursor.new st nd direction).d = nd) ∧
      ∀ direction2 : Int, ∃ c2, BasicCursor.make st d direction2 = Except.ok c2 ∧
        c2.kind = c.kind := by
  have key : ∀ dir : Int, ∃ c, BasicCursor.make st d dir = Except.ok c ∧
      c.kind = factoryVariant d ∧
      (match d with
        | none => c = Cursor.dummy (DummyCursor.new dir)
        | some nd =>
          if nd.partitioned then ∃ pc, c = Cursor.partitioned pc ∧ pc.d = nd
          else c = Cursor.basic (BasicCursor.new st nd dir) ∧
            (BasicCursor.new st nd dir).d = nd) := by
    intro dir
    cases d with
    | none => exact ⟨_, BasicCursor.make_none st dir, rfl, rfl⟩
    | some nd =>
      cases hp : nd.partitioned with
      | false =>
        refine ⟨_, BasicCursor.make_plain st nd dir hp, ?_, ?_⟩
        · simp [factoryVariant, hp, Cursor.kind]
        · simp [hp, BasicCursor.new, IndexScanCursor.new, IndexCursor.new]
      | true =>
        obtain ⟨sub, hsub⟩ := BasicCursor.make_ok st (st.nsdetails (partitionNS nd.ns 0)) dir
        refine ⟨_, BasicCursor.make_partitioned_eq st nd dir hp sub hsub, ?_, ?_⟩
        · simp [factoryVariant, hp, Cursor.kind]
        · simp [hp, PartitionedCursor.d]
  obtain ⟨c, hc, hk, hm⟩ := key direction
  refine ⟨c, hc, hk, hm, ?_⟩
  intro direction2
  obtain ⟨c2, hc2, hk2, _⟩ := key direction2
  exact ⟨c2, hc2, hk2.trans hk.symm⟩

/-- C6: for every direction the factory, given a null descriptor, returns a
cursor (it does not fail) and that cursor reports ok() false. -/
theorem make_null_not_ok (st : Storage) (direction : Int) :
    ∃ c, BasicCursor.make st none direction = Except.ok c ∧ c.ok = false :=
  ⟨_, BasicCursor.make_none st direction, rfl⟩

/-- C7: for every partitioned descriptor and direction, the factory returns
a partitioned cursor whose sub-cursor is the cursor the factory opens over
the namespace of partition 0 in the same direction, and whose initial ok()
is the ok() of that cursor: false when partition 0 is absent, and, when
partition 0 is a plain namespace, true exactly when its primary-key scan has
a first row. -/
theorem partitioned_initial_ok (st : Storage) (d : NamespaceDetails) (direction : Int)
    (h : d.partitioned = true) :
    ∃ sub pc,
      BasicCursor.make st (st.nsdetails (partitionNS d.ns 0)) direction = Except.ok sub ∧
      BasicCursor.make st (some d) direction = Except.ok (Cursor.partitioned pc) ∧
      pc.currentCursor = sub ∧
      pc.ok = sub.ok ∧
      (Cursor.partitioned pc).ok = sub.ok ∧
      (st.nsdetails (partitionNS d.ns 0) = none → pc.ok = false) ∧
      (∀ p, st.nsdetails (partitionNS d.ns 0) = some p → p.partitioned = false →
        (pc.ok = true ↔ (st.firstRow p direction).isSome = true)) := by
  obtain ⟨sub, hsub⟩ := BasicCursor.make_ok st (st.nsdetails (partitionNS d.ns 0)) direction
  refine ⟨sub, PartitionedCursor.mk d sub direction sub.ok, hsub,
    BasicCursor.make_partitioned_eq st d direction h sub hsub, rfl, rfl, rfl, ?_, ?_⟩
  · intro hnone
    rw [hnone, BasicCursor.make_none] at hsub
    cases hsub
    rfl
  · intro p hp hplain
    rw [hp, BasicCursor.make_plain st p direction hplain] at hsub
    cases hsub
    simp only [PartitionedCursor.ok, Cursor.ok, IndexCursor.ok, BasicCursor.new,
      IndexScanCursor.new, IndexCursor.new, Storage.firstRow]
    cases st.scan p p.getPKIndex
      (ScanCursor.startKey p.getPKIndex.getKeyPattern direction)
      (ScanCursor.endKey p.getPKIndex.getKeyPattern direction)
      true direction IndexScanCursor.defaultNumWanted <;> simp

/-- C7, at a concrete input: the namespace t, whose partition 0 is t.$0. -/
theorem partitioned_initial_ok_witness :
    sampleParent.partitioned = true ∧ partitionNS sampleParent.ns 0 = "t.$0" ∧
    ∃ sub pc,
      BasicCursor.make sampleStorage
        (sampleStorage.nsdetails (partitionNS sampleParent.ns 0)) 1 = Except.ok sub ∧
      BasicCursor.make sampleStorage (some sampleParent) 1
        = Except.ok (Cursor.partitioned pc) ∧
      pc.currentCursor = sub ∧
      pc.ok = sub.ok ∧
      (Cursor.partitioned pc).ok = sub.ok ∧
      (sampleStorage.nsdetails (partitionNS sampleParent.ns 0) = none → pc.ok = false) ∧
      (∀ p, sampleStorage.nsdetails (partitionNS sampleParent.ns 0) = some p →
        p.partitioned = false →
        (pc.ok = true ↔ (sampleStorage.firstRow p 1).isSome = true)) :=
  ⟨rfl, by decide, partitioned_initial_ok sampleStorage sampleParent 1 rfl⟩

/-- Reading ok() off the members. -/
theorem PartitionedCursor.ok_mk (d : NamespaceDetails) (cur : Cursor) (dir : Int) (ok : Bool) :
    (PartitionedCursor.mk d cur dir ok).ok = ok := rfl

/-- One call of advance() on a partitioned cursor, member by member. -/
theorem PartitionedCursor.advance_eq (c : PartitionedCursor) :
    c.advance =
      (PartitionedCursor.mk c.d (Cursor.advance c.currentCursor).1 c.direction
          (c.ok && (Cursor.advance c.currentCursor).2),
        c.ok && (Cursor.advance c.currentCursor).2) := by
  cases c with
  | mk d cur dir ok =>
    rw [PartitionedCursor.advance]
    simp only [PartitionedCursor.d, PartitionedCursor.currentCursor,
      PartitionedCursor.direction, PartitionedCursor.ok]
    cases (Cursor.advance cur).2 <;> cases ok <;> rfl

/-- An exhausted partitioned cursor stays exhausted under advance(). -/
theorem PartitionedCursor.advanceTimes_not_ok (n : Nat) :
    ∀ c : PartitionedCursor, c.ok = false →
      (PartitionedCursor.advanceTimes n c).ok = false := by
  induction n with
  | zero => intro c h; exact h
  | succ n ih =>
    intro c h
    rw [PartitionedCursor.advanceTimes]
    apply ih
    rw [PartitionedCursor.advance_eq]
    simp [PartitionedCursor.ok_mk, h]

/-- C8: EXHAUSTED is terminal. Once ok() is false, after any number of
advance() calls ok() is still false and the next advance() returns false,
whatever the sub-cursor returns; and an advance() in which the sub-cursor
reports no further rows leaves the cursor in that state. -/
theorem exhausted_is_terminal (c : PartitionedCursor) :
    (c.ok = false → ∀ n : Nat,
      (PartitionedCursor.advanceTimes n c).ok = false ∧
      (PartitionedCursor.advanceTimes n c).advance.2 = false) ∧
    ((Cursor.advance c.currentCursor).2 = false → ∀ n : Nat,
      (PartitionedCursor.advanceTimes (n + 1) c).ok = false ∧
      (PartitionedCursor.advanceTimes (n + 1) c).advance.2 = false) := by
  have key : ∀ c : PartitionedCursor, c.ok = false → ∀ n : Nat,
      (PartitionedCursor.advanceTimes n c).ok = false ∧
      (PartitionedCursor.advanceTimes n c).advance.2 = false := by
    intro c h n
    have h1 := PartitionedCursor.advanceTimes_not_ok n c h
    refine ⟨h1, ?_⟩
    rw [PartitionedCursor.advance_eq]
    simp [h1]
  refine ⟨key c, ?_⟩
  intro h n
  rw [PartitionedCursor.advanceTimes]
  apply key
  rw [PartitionedCursor.advance_eq]
  simp [PartitionedCursor.ok, h]

/-- C8, at a concrete input: an exhausted cursor whose sub-cursor still has
rows and returns true from its own advance, and an active cursor on the last
row of its sub-cursor. -/
theorem exhausted_is_terminal_witness :
    (sampleExhausted.ok = false ∧
      (Cursor.advance sampleExhausted.currentCursor).2 = true ∧
      ∀ n : Nat, (PartitionedCursor.advanceTimes n sampleExhausted).ok = false ∧
        (PartitionedCursor.advanceTimes n sampleExhausted).advance.2 = false) ∧
    (sampleActive.advance.1.ok = true ∧
      (Cursor.advance sampleActive.advance.1.currentCursor).2 = false ∧
      ∀ n : Nat, (PartitionedCursor.advanceTimes (n + 1) sampleActive.advance.1).ok = false ∧
        (PartitionedCursor.advanceTimes (n + 1) sampleActive.advance.1).advance.2 = false) :=
  ⟨⟨rfl, rfl, (exhausted_is_terminal sampleExhausted).1 rfl⟩,
    ⟨rfl, rfl, (exhausted_is_terminal sampleActive.advance.1).2 rfl⟩⟩

/-- C9: advance() on a partitioned cursor advances the sub-cursor once (the
new sub-cursor is the old one after one advance, the other members are
kept) and returns the value ok() reports after the call; that value is true
exactly when the cursor was ACTIVE before and the sub-cursor returned true,
and it is false whenever the sub-cursor returned false. -/
theorem partitioned_advance (c : PartitionedCursor) :
    c.advance.1.currentCursor = (Cursor.advance c.currentCursor).1 ∧
    c.advance.1.d = c.d ∧
    c.advance.1.direction = c.direction ∧
    c.advance.2 = c.advance.1.ok ∧
    (c.advance.2 = true ↔ (c.ok = true ∧ (Cursor.advance c.currentCursor).2 = true)) ∧
    ((Cursor.advance c.currentCursor).2 = false → c.advance.2 = false) := by
  rw [PartitionedCursor.advance_eq]
  refine ⟨rfl, rfl, rfl, rfl, ?_, ?_⟩
  · simp
  · intro h
    simp [h]

/-- C9, at a concrete input: an active cursor on the last row of its
sub-cursor. -/
theorem partitioned_advance_witness :
    (Cursor.advance sampleActive.advance.1.currentCursor).2 = false ∧
    sampleActive.advance.1.advance.2 = false :=
  ⟨rfl, (partitioned_advance sampleActive.advance.1).2.2.2.2.2 rfl⟩

/-- C10: for every non-null descriptor that is not partitioned and every
direction, the factory returns an index-scan cursor over the primary-key
index of the descriptor, with start bound startKey and end bound endKey of
that index's key pattern and the direction, the end bound inclusive, and the
direction unchanged; these are the arguments the engine's iterator gets. -/
theorem make_plain_bounds (st : Storage) (d : NamespaceDetails) (direction : Int)
    (h : d.partitioned = false) :
    ∃ c : BasicCursor, BasicCursor.make st (some d) direction = Except.ok (Cursor.basic c) ∧
      c.d = d ∧
      c.idx = d.getPKIndex ∧
      c.startKey = ScanCursor.startKey d.getPKIndex.getKeyPattern direction ∧
      c.endKey = ScanCursor.endKey d.getPKIndex.getKeyPattern direction ∧
      c.endKeyInclusive = true ∧
      c.direction = direction ∧
      c.pending = st.scan d d.getPKIndex
        (ScanCursor.startKey d.getPKIndex.getKeyPattern direction)
        (ScanCursor.endKey d.getPKIndex.getKeyPattern direction)
        true direction c.numWanted :=
  ⟨BasicCursor.new st d direction, BasicCursor.make_plain st d direction h,
    rfl, rfl, rfl, rfl, rfl, rfl, rfl⟩

/-- C10, at a concrete input: the plain namespace t.$0 scanned backward. -/
theorem make_plain_bounds_witness :
    samplePartition.partitioned = false ∧
    ∃ c : BasicCursor,
      BasicCursor.make sampleStorage (some samplePartition) (-1) = Except.ok (Cursor.basic c) ∧
      c.d = samplePartition ∧
      c.idx = samplePartition.getPKIndex ∧
      c.startKey = ScanCursor.startKey samplePartition.getPKIndex.getKeyPattern (-1) ∧
      c.endKey = ScanCursor.endKey samplePartition.getPKIndex.getKeyPattern (-1) ∧
      c.endKeyInclusive = true ∧
      c.direction = -1 ∧
      c.pending = sampleStorage.scan samplePartition samplePartition.getPKIndex
        (ScanCursor.startKey samplePartition.getPKIndex.getKeyPattern (-1))
        (ScanCursor.endKey samplePartition.getPKIndex.getKeyPattern (-1))
        true (-1) c.numWanted :=
  ⟨rfl, make_plain_bounds sampleStorage samplePartition (-1) rfl⟩

/-! ## Properties of the debug check -/

/-- C11: an index-scan cursor opened by BasicCursor with direction 2 over an
ascending primary key, positioned on the key 7 below its end key maxKey, is
in the consistent state of the specification (the comparison and the
direction are both positive), and the debug check raises the fatal
assertion 17202 all the same. -/
theorem checkEnd_direction_two :
    sampleStride.direction = 2 ∧
    sampleStride.endKey = maxKey ∧
    sampleStride.endKeyInclusive = true ∧
    sampleStride.currKey = [⟨"", BSONValue.number 7⟩] ∧
    BSONObj.woCompare sampleStride.endKey sampleStride.currKey sampleStride.ordering = 1 ∧
    IndexScanCursor.consistent sampleStride ∧
    IndexScanCursor.checkEnd true sampleStride
      = Except.error (AssertionException.msgasserted 17202
          "IndexScanCursor has a bad currKey/endKey combination") := by
  refine ⟨rfl, rfl, rfl, rfl, rfl, ?_, rfl⟩
  decide

/-- The comparison of two single-field keys is the comparison of their
values, reversed when the Ordering marks the first field descending. -/
theorem BSONObj.woCompare_single (s e : BSONElement) (o : Ordering) :
    BSONObj.woCompare [s] [e] o
      = if o.descending 1 then -(s.value.woCompare e.value) else s.value.woCompare e.value := by
  simp only [BSONObj.woCompare, BSONObj.woCompareFrom]
  split <;> simp
  intro h
  exact h.symm

/-- Nothing compares above the maximum sentinel value. -/
theorem BSONValue.woCompare_maxKey (v : BSONValue) :
    BSONValue.maxKey.woCompare v = 0 ∨ BSONValue.maxKey.woCompare v = 1 := by
  cases v <;> simp [BSONValue.woCompare]

/-- Nothing compares below the minimum sentinel value. -/
theorem BSONValue.woCompare_minKey (v : BSONValue) :
    BSONValue.minKey.woCompare v = 0 ∨ BSONValue.minKey.woCompare v = -1 := by
  cases v <;> simp [BSONValue.woCompare]

/-- The debug check, when enabled, in terms of the sign of the comparison. -/
theorem IndexScanCursor.checkEnd_dev (c : IndexScanCursor) :
    IndexScanCursor.checkEnd true c =
      if c.endKey.isEmpty then Except.error AssertionException.verifyFailed
      else if (signOf (BSONObj.woCompare c.endKey c.currKey c.ordering) ≠ 0 ∧
            signOf (BSONObj.woCompare c.endKey c.currKey c.ordering) ≠ c.direction) ∨
          (signOf (BSONObj.woCompare c.endKey c.currKey c.ordering) = 0 ∧
            c.endKeyInclusive = false)
        then Except.error IndexScanCursor.badCombination
        else Except.ok () := rfl

/-- Against the end key of a scan in direction +1 or -1, a single-field key
compares with sign 0 or with the sign of the direction. -/
theorem ScanCursor.endKey_sign (keyPattern : BSONObj) (direction : Int) (e : BSONElement)
    (hdir : direction = 1 ∨ direction = -1) :
    signOf (BSONObj.woCompare (ScanCursor.endKey keyPattern direction) [e]
        (Ordering.make keyPattern)) = 0 ∨
    signOf (BSONObj.woCompare (ScanCursor.endKey keyPattern direction) [e]
        (Ordering.make keyPattern)) = direction := by
  have hmax := BSONValue.woCompare_maxKey e.value
  have hmin := BSONValue.woCompare_minKey e.value
  rcases Bool.eq_false_or_eq_true ((Ordering.make keyPattern).descending 1) with hdesc | hdesc <;>
    rcases hdir with h1 | h1 <;> subst h1 <;>
    rcases hmax with h2 | h2 <;> rcases hmin with h3 | h3 <;>
    simp [ScanCursor.endKey, ScanCursor.reverseMinMaxBoundsOrder, minKey, maxKey,
      BSONObj.woCompare_single, hdesc, h2, h3, signOf]

/-- C17: the entire keyspace is in bounds for a scan cursor. For every key
pattern, direction +1 or -1 and single-field current key, a cursor whose end
key is endKey of the pattern and direction, whose end bound is inclusive and
whose Ordering is made from the same pattern passes checkEnd, with the debug
check enabled or not: the assertion 17202 does not fire. Every single-field
key lies between the two sentinels. -/
theorem scan_keyspace_in_bounds (dev : Bool) (keyPattern : BSONObj) (direction : Int)
    (e : BSONElement) (c : IndexScanCursor)
    (hdir : direction = 1 ∨ direction = -1)
    (hend : c.endKey = ScanCursor.endKey keyPattern direction)
    (hincl : c.endKeyInclusive = true)
    (hord : c.ordering = Ordering.make keyPattern)
    (hd : c.direction = direction)
    (hk : c.currKey = [e]) :
    IndexScanCursor.checkEnd dev c = Except.ok () ∧
    BSONObj.woCompare minKey [e] (Ordering.make []) ≤ 0 ∧
    BSONObj.woCompare [e] maxKey (Ordering.make []) ≤ 0 := by
  refine ⟨?_, ?_, ?_⟩
  · cases dev with
    | false => rfl
    | true =>
      have hsign := ScanCursor.endKey_sign keyPattern direction e hdir
      have hne : (ScanCursor.endKey keyPattern direction).isEmpty = false := by
        simp only [ScanCursor.endKey]
        split <;> rfl
      rw [IndexScanCursor.checkEnd_dev, hend, hincl, hord, hd, hk, hne]
      rcases hsign with h | h <;> simp [h]
  · rw [minKey, BSONObj.woCompare_single]
    rcases BSONValue.woCompare_minKey e.value with h | h <;>
      simp [Ordering.make, Ordering.descending, h]
  · rw [maxKey, BSONObj.woCompare_single]
    cases e.value <;> simp [Ordering.make, Ordering.descending, BSONValue.woCompare]

/-- C17, at a concrete input: the cursor BasicCursor opens backward over
t.$0, positioned on the key 7. -/
theorem scan_keyspace_in_bounds_witness :
    IndexScanCursor.checkEnd true (BasicCursor.new sampleStorage samplePartition (-1))
      = Except.ok () ∧
    BSONObj.woCompare minKey [⟨"", BSONValue.number 7⟩] (Ordering.make []) ≤ 0 ∧
    BSONObj.woCompare [⟨"", BSONValue.number 7⟩] maxKey (Ordering.make []) ≤ 0 :=
  scan_keyspace_in_bounds true sampleIndex.getKeyPattern (-1) ⟨"", BSONValue.number 7⟩
    (BasicCursor.new sampleStorage samplePartition (-1))
    (Or.inr rfl) rfl rfl rfl rfl rfl

/-- A sign is -1, 0 or +1. -/
theorem signOf_cases (n : Int) : signOf n = 0 ∨ signOf n = 1 ∨ signOf n = -1 := by
  unfold signOf
  split
  · exact Or.inl rfl
  · split
    · exact Or.inr (Or.inl rfl)
    · exact Or.inr (Or.inr rfl)

/-- With direction +1 or -1, a non-empty end key and the debug check
enabled, checkEnd raises the assertion 17202 exactly when the cursor is not
in the consistent state of the specification. -/
theorem IndexScanCursor.checkEnd_unit_direction (c : IndexScanCursor)
    (hdir : c.direction = 1 ∨ c.direction = -1) (hne : c.endKey.isEmpty = false) :
    IndexScanCursor.checkEnd true c = Except.error IndexScanCursor.badCombination
      ↔ ¬ IndexScanCursor.consistent c := by
  rw [IndexScanCursor.checkEnd_dev, hne, IndexScanCursor.consistent]
  have hs := signOf_cases (BSONObj.woCompare c.endKey c.currKey c.ordering)
  have e1 : signOf (1 : Int) = 1 := rfl
  have e2 : signOf (-1 : Int) = -1 := rfl
  generalize signOf (BSONObj.woCompare c.endKey c.currKey c.ordering) = s at hs ⊢
  cases hi : c.endKeyInclusive <;>
    rcases hdir with h | h <;> rcases hs with h1 | h1 | h1 <;>
    simp [h, h1, e1, e2]

/-! ## Further properties of the bound resolver -/

/-- C12: for every key pattern and any two directions of the same sign,
both positive or both negative, startKey and endKey return the same
sentinels: the magnitude of the direction does not matter. -/
theorem startKey_endKey_same_sign (keyPattern : BSONObj) (d1 d2 : Int)
    (h : (0 < d1 ∧ 0 < d2) ∨ (d1 < 0 ∧ d2 < 0)) :
    ScanCursor.startKey keyPattern d1 = ScanCursor.startKey keyPattern d2 ∧
    ScanCursor.endKey keyPattern d1 = ScanCursor.endKey keyPattern d2 := by
  have hf : decide (d1 > 0) = decide (d2 > 0) := by
    rcases h with ⟨h1, h2⟩ | ⟨h1, h2⟩
    · simp [h1, h2]
    · have h3 : ¬ d1 > 0 := by omega
      have h4 : ¬ d2 > 0 := by omega
      simp [h3, h4]
  simp [ScanCursor.startKey, ScanCursor.endKey, ScanCursor.reverseMinMaxBoundsOrder, hf]

/-- C12, at a concrete input: the key pattern {a: -1} with directions -1 and
-40. -/
theorem startKey_endKey_same_sign_witness :
    ((-1 : Int) < 0 ∧ (-40 : Int) < 0) ∧
    ScanCursor.startKey [⟨"a", BSONValue.number (-1)⟩] (-1)
      = ScanCursor.startKey [⟨"a", BSONValue.number (-1)⟩] (-40) ∧
    ScanCursor.endKey [⟨"a", BSONValue.number (-1)⟩] (-1)
      = ScanCursor.endKey [⟨"a", BSONValue.number (-1)⟩] (-40) :=
  ⟨by decide,
    startKey_endKey_same_sign [⟨"a", BSONValue.number (-1)⟩] (-1) (-40)
      (Or.inr (by decide))⟩

/-- C13: for every direction, two key patterns whose first fields have the
same orientation get the same startKey and endKey, whatever their remaining
fields are; and a key pattern with no fields gets the bounds of a pattern
whose first field is ascending. -/
theorem startKey_endKey_first_field_only (direction : Int) :
    (∀ (e1 e2 : BSONElement) (rest1 rest2 : BSONObj),
      e1.isDescending = e2.isDescending →
      ScanCursor.startKey (e1 :: rest1) direction = ScanCursor.startKey (e2 :: rest2) direction ∧
      ScanCursor.endKey (e1 :: rest1) direction = ScanCursor.endKey (e2 :: rest2) direction) ∧
    (∀ (e : BSONElement) (rest : BSONObj), e.isDescending = false →
      ScanCursor.startKey [] direction = ScanCursor.startKey (e :: rest) direction ∧
      ScanCursor.endKey [] direction = ScanCursor.endKey (e :: rest) direction) := by
  refine ⟨?_, ?_⟩
  · intro e1 e2 rest1 rest2 h
    simp [ScanCursor.startKey, ScanCursor.endKey, reverse_eq, firstFieldAscending, h]
  · intro e rest h
    simp only [ScanCursor.startKey, ScanCursor.endKey, reverse_eq, firstFieldAscending, h]
    exact ⟨rfl, rfl⟩

/-- C13, at a concrete input: the key patterns {a: -1, b: 1} and
{c: -5, d: -1, e: 1} scanned forward, and the empty pattern against
{a: 1, b: -1} scanned backward. -/
theorem startKey_endKey_first_field_only_witness :
    (ScanCursor.startKey [⟨"a", BSONValue.number (-1)⟩, ⟨"b", BSONValue.number 1⟩] 1
      = ScanCursor.startKey [⟨"c", BSONValue.number (-5)⟩, ⟨"d", BSONValue.number (-1)⟩,
          ⟨"e", BSONValue.number 1⟩] 1 ∧
     ScanCursor.endKey [⟨"a", BSONValue.number (-1)⟩, ⟨"b", BSONValue.number 1⟩] 1
      = ScanCursor.endKey [⟨"c", BSONValue.number (-5)⟩, ⟨"d", BSONValue.number (-1)⟩,
          ⟨"e", BSONValue.number 1⟩] 1) ∧
    (ScanCursor.startKey [] (-1)
      = ScanCursor.startKey [⟨"a", BSONValue.number 1⟩, ⟨"b", BSONValue.number (-1)⟩] (-1) ∧
     ScanCursor.endKey [] (-1)
      = ScanCursor.endKey [⟨"a", BSONValue.number 1⟩, ⟨"b", BSONValue.number (-1)⟩] (-1)) :=
  ⟨(startKey_endKey_first_field_only 1).1 ⟨"a", BSONValue.number (-1)⟩
      ⟨"c", BSONValue.number (-5)⟩ [⟨"b", BSONValue.number 1⟩]
      [⟨"d", BSONValue.number (-1)⟩, ⟨"e", BSONValue.number 1⟩] rfl,
    (startKey_endKey_first_field_only (-1)).2 ⟨"a", BSONValue.number 1⟩
      [⟨"b", BSONValue.number (-1)⟩] rfl⟩

/-- C18: direction 0 is resolved as a backward scan: for every key pattern
and every negative direction d, startKey and endKey at 0 equal startKey and
endKey at d; so with an ascending first field direction 0 starts at maxKey
and ends at minKey. -/
theorem startKey_endKey_direction_zero (keyPattern : BSONObj) :
    (∀ d : Int, d < 0 →
      ScanCursor.startKey keyPattern 0 = ScanCursor.startKey keyPattern d ∧
      ScanCursor.endKey keyPattern 0 = ScanCursor.endKey keyPattern d) ∧
    (firstFieldAscending keyPattern = true →
      ScanCursor.startKey keyPattern 0 = maxKey ∧ ScanCursor.endKey keyPattern 0 = minKey) := by
  refine ⟨?_, ?_⟩
  · intro d hd
    have h1 : ¬ d > 0 := by omega
    simp [ScanCursor.startKey, ScanCursor.endKey, ScanCursor.reverseMinMaxBoundsOrder, h1]
  · intro h
    simp [ScanCursor.startKey, ScanCursor.endKey, reverse_eq, h]

/-- C18, at a concrete input: the key pattern {a: 1} with directions 0 and
-3. -/
theorem startKey_endKey_direction_zero_witness :
    (-3 : Int) < 0 ∧ firstFieldAscending [⟨"a", BSONValue.number 1⟩] = true ∧
    (ScanCursor.startKey [⟨"a", BSONValue.number 1⟩] 0
      = ScanCursor.startKey [⟨"a", BSONValue.number 1⟩] (-3) ∧
     ScanCursor.endKey [⟨"a", BSONValue.number 1⟩] 0
      = ScanCursor.endKey [⟨"a", BSONValue.number 1⟩] (-3)) ∧
    (ScanCursor.startKey [⟨"a", BSONValue.number 1⟩] 0 = maxKey ∧
     ScanCursor.endKey [⟨"a", BSONValue.number 1⟩] 0 = minKey) :=
  ⟨by decide, rfl,
    (startKey_endKey_direction_zero [⟨"a", BSONValue.number 1⟩]).1 (-3) (by decide),
    (startKey_endKey_direction_zero [⟨"a", BSONValue.number 1⟩]).2 rfl⟩

/-! ## The sub-cursor of the partitioned cursor -/

/-- C14 fails as stated: when the partitioned namespace t has no namespace
t.$0 the sub-cursor after construction is the null cursor, and when t.$0 is
itself partitioned the sub-cursor is another partitioned cursor; in neither
case is it a primary-key cursor. -/
theorem sub_cursor_not_basic :
    sampleParent.partitioned = true ∧
    BasicCursor.make orphanStorage (some sampleParent) 1
      = Except.ok (Cursor.partitioned
          (PartitionedCursor.mk sampleParent (Cursor.dummy (DummyCursor.new 1)) 1 false)) ∧
    (PartitionedCursor.mk sampleParent (Cursor.dummy (DummyCursor.new 1)) 1
      false).currentCursor.kind = CursorKind.dummy ∧
    BasicCursor.make nestedStorage (some sampleParent) 1
      = Except.ok (Cursor.partitioned
          (PartitionedCursor.mk sampleParent
            (Cursor.partitioned
              (PartitionedCursor.mk nestedPartition (Cursor.dummy (DummyCursor.new 1)) 1 false))
            1 false)) ∧
    (PartitionedCursor.mk sampleParent
      (Cursor.partitioned
        (PartitionedCursor.mk nestedPartition (Cursor.dummy (DummyCursor.new 1)) 1 false))
      1 false).currentCursor.kind = CursorKind.partitioned := by
  have h0 : orphanStorage.nsdetails (partitionNS sampleParent.ns 0) = none := by decide
  have h1 : nestedStorage.nsdetails (partitionNS sampleParent.ns 0) = some nestedPartition := by
    decide
  have h2 : nestedStorage.nsdetails (partitionNS nestedPartition.ns 0) = none := by decide
  refine ⟨rfl, ?_, rfl, ?_, rfl⟩
  · rw [BasicCursor.make_partitioned_eq orphanStorage sampleParent 1 rfl
      (Cursor.dummy (DummyCursor.new 1))]
    · rfl
    · rw [h0, BasicCursor.make_none]
  · have h3 : BasicCursor.make nestedStorage (some nestedPartition) 1
        = Except.ok (Cursor.partitioned
            (PartitionedCursor.mk nestedPartition (Cursor.dummy (DummyCursor.new 1)) 1 false)) := by
      rw [BasicCursor.make_partitioned_eq nestedStorage nestedPartition 1 rfl
        (Cursor.dummy (DummyCursor.new 1))]
      · rfl
      · rw [h2, BasicCursor.make_none]
    rw [BasicCursor.make_partitioned_eq nestedStorage sampleParent 1 rfl
      (Cursor.partitioned
        (PartitionedCursor.mk nestedPartition (Cursor.dummy (DummyCursor.new 1)) 1 false))]
    · rfl
    · rw [h1, h3]

/-- C14, amended: for every partitioned descriptor and direction, the single
sub-cursor the partitioned cursor owns after construction is the cursor the
factory returns for the namespace of partition 0: the primary-key cursor
over that namespace when it exists and is not partitioned, the null cursor
when it is absent, and another partitioned cursor when it is itself
partitioned. -/
theorem sub_cursor_is_factory_result (st : Storage) (d : NamespaceDetails) (direction : Int)
    (h : d.partitioned = true) :
    ∃ sub : Cursor,
      BasicCursor.make st (some d) direction
        = Except.ok (Cursor.partitioned (PartitionedCursor.mk d sub direction sub.ok)) ∧
      BasicCursor.make st (st.nsdetails (partitionNS d.ns 0)) direction = Except.ok sub ∧
      sub.kind = factoryVariant (st.nsdetails (partitionNS d.ns 0)) ∧
      (st.nsdetails (partitionNS d.ns 0) = none → sub = Cursor.dummy (DummyCursor.new direction)) ∧
      (∀ p, st.nsdetails (partitionNS d.ns 0) = some p →
        p.ns = partitionNS d.ns 0 ∧
        (p.partitioned = false → sub = Cursor.basic (BasicCursor.new st p direction)) ∧
        (p.partitioned = true → ∃ pc, sub = Cursor.partitioned pc ∧ pc.d = p)) := by
  obtain ⟨sub, hsub⟩ := BasicCursor.make_ok st (st.nsdetails (partitionNS d.ns 0)) direction
  refine ⟨sub, BasicCursor.make_partitioned_eq st d direction h sub hsub, hsub, ?_, ?_, ?_⟩
  · cases hp : st.nsdetails (partitionNS d.ns 0) with
    | none =>
      rw [hp, BasicCursor.make_none] at hsub
      cases hsub
      rfl
    | some p =>
      rw [hp] at hsub
      cases hq : p.partitioned with
      | false =>
        rw [BasicCursor.make_plain st p direction hq] at hsub
        cases hsub
        simp [factoryVariant, hq, Cursor.kind]
      | true =>
        obtain ⟨s2, hs2⟩ := BasicCursor.make_ok st (st.nsdetails (partitionNS p.ns 0)) direction
        rw [BasicCursor.make_partitioned_eq st p direction hq s2 hs2] at hsub
        cases hsub
        simp [factoryVariant, hq, Cursor.kind]
  · intro hnone
    rw [hnone, BasicCursor.make_none] at hsub
    cases hsub
    rfl
  · intro p hp
    refine ⟨Storage.nsdetails_ns hp, ?_, ?_⟩
    · intro hq
      rw [hp, BasicCursor.make_plain st p direction hq] at hsub
      cases hsub
      rfl
    · intro hq
      obtain ⟨s2, hs2⟩ := BasicCursor.make_ok st (st.nsdetails (partitionNS p.ns 0)) direction
      rw [hp, BasicCursor.make_partitioned_eq st p direction hq s2 hs2] at hsub
      cases hsub
      exact ⟨_, rfl, rfl⟩

/-- C14 amended, at a concrete input: the namespace t, whose partition 0 is
the plain namespace t.$0. -/
theorem sub_cursor_is_factory_result_witness :
    sampleParent.partitioned = true ∧
    sampleStorage.nsdetails (partitionNS sampleParent.ns 0) = some samplePartition ∧
    ∃ sub : Cursor,
      BasicCursor.make sampleStorage (some sampleParent) 1
        = Except.ok (Cursor.partitioned (PartitionedCursor.mk sampleParent sub 1 sub.ok)) ∧
      sub = Cursor.basic (BasicCursor.new sampleStorage samplePartition 1) := by
  obtain ⟨sub, h1, _, _, _, h5⟩ := sub_cursor_is_factory_result sampleStorage sampleParent 1 rfl
  exact ⟨rfl, by decide, sub, h1, (h5 samplePartition (by decide)).2.1 rfl⟩

/-! ## The delegating and the fixed operations of the partitioned cursor -/

/-- C15: on a partitioned cursor setTailable(), setMatcher(m) and
setKeyFieldsOnly(p) leave the whole state (ok flag, direction, namespace
reference, sub-cursor with its position) unchanged for every argument, and
tailable() is false in every state, also after any number of setTailable()
calls. -/
theorem setters_are_noops (c : PartitionedCursor) (m : Option CoveredIndexMatcher)
    (p : Option KeyOnly) (n : Nat) :
    c.setTailable = c ∧ c.setMatcher m = c ∧ c.setKeyFieldsOnly p = c ∧
    (c.setTailable.ok = c.ok ∧ c.setTailable.direction = c.direction ∧
      c.setTailable.d = c.d ∧ c.setTailable.currentCursor = c.currentCursor) ∧
    ((c.setMatcher m).ok = c.ok ∧ (c.setMatcher m).direction = c.direction ∧
      (c.setMatcher m).d = c.d ∧ (c.setMatcher m).currentCursor = c.currentCursor) ∧
    ((c.setKeyFieldsOnly p).ok = c.ok ∧ (c.setKeyFieldsOnly p).direction = c.direction ∧
      (c.setKeyFieldsOnly p).d = c.d ∧
      (c.setKeyFieldsOnly p).currentCursor = c.currentCursor) ∧
    c.tailable = false ∧
    PartitionedCursor.setTailableTimes n c = c ∧
    (PartitionedCursor.setTailableTimes n c).tailable = false ∧
    (PartitionedCursor.advanceTimes n c).tailable = false := by
  have hn : ∀ k : Nat, PartitionedCursor.setTailableTimes k c = c := by
    intro k
    induction k with
    | zero => rfl
    | succ k ih =>
      rw [PartitionedCursor.setTailableTimes]
      exact ih
  exact ⟨rfl, rfl, rfl, ⟨rfl, rfl, rfl, rfl⟩, ⟨rfl, rfl, rfl, rfl⟩, ⟨rfl, rfl, rfl, rfl⟩,
    rfl, hn n, rfl, rfl⟩

/-- C16: on a partitioned cursor current(), currKey() and currPK() return
what the sub-cursor returns for the same operation; getsetdup(pk) returns
false for every primary key, records nothing and returns false again for
the same key; and nscanned() is 0 in every state, also after any number of
advance() calls. -/
theorem delegated_and_fixed_reads (c : PartitionedCursor) (pk : BSONObj) (n : Nat) :
    c.current = Cursor.current c.currentCursor ∧
    c.currKey = Cursor.currKey c.currentCursor ∧
    c.currPK = Cursor.currPK c.currentCursor ∧
    (c.getsetdup pk).2 = false ∧
    (c.getsetdup pk).1 = c ∧
    ((c.getsetdup pk).1.getsetdup pk).2 = false ∧
    c.nscanned = 0 ∧
    (PartitionedCursor.advanceTimes n c).nscanned = 0 := by
  cases c with
  | mk d cur dir ok =>
    refine ⟨?_, ?_, ?_, rfl, rfl, rfl, rfl, rfl⟩
    · rw [PartitionedCursor.current, PartitionedCursor.currentCursor]
    · rw [PartitionedCursor.currKey, PartitionedCursor.currentCursor]
    · rw [PartitionedCursor.currPK, PartitionedCursor.currentCursor]

/-! ## ACTIVE implies a positioned sub-cursor -/

/-- Every cursor variant of the factory returns its own new ok() from
advance(). -/
theorem Cursor.impl_advanceReturnsOk : Cursor.impl.advanceReturnsOk := by
  intro c
  cases c with
  | dummy c => rfl
  | basic c => rfl
  | partitioned c =>
    show (Cursor.advance (Cursor.partitioned c)).2
      = Cursor.ok (Cursor.advance (Cursor.partitioned c)).1
    rw [Cursor.advance, PartitionedCursor.advance_eq]
    rfl

/-- The advance() of a partitioned cursor of the factory is the advance() of
the partitioned cursor over Cursor.impl. -/
theorem PartitionedCursor.toOver_advance (c : PartitionedCursor) :
    c.advance.1.toOver = (PartitionedOver.advance Cursor.impl c.toOver).1 ∧
    c.advance.2 = (PartitionedOver.advance Cursor.impl c.toOver).2 := by
  cases c with
  | mk d cur dir ok =>
    rw [PartitionedCursor.advance]
    exact ⟨rfl, rfl⟩

/-- A partitioned cursor returned by the factory is in the state its
constructor leaves. -/
theorem BasicCursor.make_partitioned_inv (st : Storage) (d : NamespaceDetails)
    (direction : Int) (c : PartitionedCursor)
    (h : BasicCursor.make st (some d) direction = Except.ok (Cursor.partitioned c)) :
    ∃ sub : Cursor, c = PartitionedCursor.mk d sub direction sub.ok := by
  cases hp : d.partitioned with
  | false =>
    rw [BasicCursor.make_plain st d direction hp] at h
    cases h
  | true =>
    obtain ⟨sub, hsub⟩ := BasicCursor.make_ok st (st.nsdetails (partitionNS d.ns 0)) direction
    rw [BasicCursor.make_partitioned_eq st d direction hp sub hsub] at h
    cases h
    exact ⟨sub, rfl⟩

/-- Over a sub-cursor whose advance() returns its new ok(), a partitioned
cursor that reports ok() has a sub-cursor that reports ok(). -/
theorem PartitionedOver.ok_imp_sub_ok {σ : Type} (I : CursorImpl σ)
    (hI : I.advanceReturnsOk) (c : PartitionedOver σ)
    (hc : PartitionedOver.Reachable I c) : c.ok = true → I.ok c.currentCursor = true := by
  induction hc with
  | constructed d sub direction =>
    intro h
    exact h
  | advanced c _ ih =>
    intro h
    simp only [PartitionedOver.advance] at h ⊢
    rw [← hI c.currentCursor]
    cases hadv : (I.advance c.currentCursor).2 with
    | true => rfl
    | false => simp [hadv] at h

/-- The states of a partitioned cursor of the factory are states of the
partitioned cursor over Cursor.impl. -/
theorem PartitionedCursor.reachable_toOver (st : Storage) (c : PartitionedCursor)
    (hc : PartitionedCursor.Reachable st c) :
    PartitionedOver.Reachable Cursor.impl c.toOver := by
  induction hc with
  | made d direction c h =>
    obtain ⟨sub, rfl⟩ := BasicCursor.make_partitioned_inv st d direction c h
    exact PartitionedOver.Reachable.constructed d sub direction
  | advanced c _ ih =>
    rw [(PartitionedCursor.toOver_advance c).1]
    exact PartitionedOver.Reachable.advanced _ ih
  | tailableSet c _ ih => exact ih
  | matcherSet c m _ ih => exact ih
  | keyFieldsOnlySet c p _ ih => exact ih
  | dupAsked c pk _ ih => exact ih

/-- The factory returns the sample active cursor for the namespace t. -/
theorem make_sampleParent :
    BasicCursor.make sampleStorage (some sampleParent) 1
      = Except.ok (Cursor.partitioned sampleActive) := by
  have h0 : sampleStorage.nsdetails (partitionNS sampleParent.ns 0) = some samplePartition := by
    decide
  rw [BasicCursor.make_partitioned_eq sampleStorage sampleParent 1 rfl (Cursor.basic sampleBasic)]
  · rfl
  · rw [h0, BasicCursor.make_plain _ _ _ rfl]
    rfl

/-- C19: in every reachable state of a partitioned cursor, ok() true implies
that the sub-cursor reports ok(): over any sub-cursor implementation whose
advance() returns its own new ok(), and so for the cursors the factory
makes, where current(), currKey() and currPK() of an ACTIVE cursor are then
those of a positioned sub-cursor. The converse can fail: a sub-cursor that
reports ok() again after an advance() that returned false leaves the
partitioned cursor EXHAUSTED. -/
theorem active_implies_sub_cursor_ok :
    (∀ (σ : Type) (I : CursorImpl σ), I.advanceReturnsOk →
      ∀ c : PartitionedOver σ, PartitionedOver.Reachable I c →
        c.ok = true → I.ok c.currentCursor = true) ∧
    (∀ (st : Storage) (c : PartitionedCursor), PartitionedCursor.Reachable st c →
      c.ok = true →
        c.currentCursor.ok = true ∧
        c.current = Cursor.current c.currentCursor ∧
        c.currKey = Cursor.currKey c.currentCursor ∧
        c.currPK = Cursor.currPK c.currentCursor) ∧
    (scriptedImpl.advanceReturnsOk ∧
      PartitionedOver.Reachable scriptedImpl scriptedRevived ∧
      scriptedImpl.ok scriptedRevived.currentCursor = true ∧
      scriptedRevived.ok = false) := by
  refine ⟨fun σ I hI c hc => PartitionedOver.ok_imp_sub_ok I hI c hc, ?_, ?_⟩
  · intro st c hc hok
    have h1 := PartitionedOver.ok_imp_sub_ok Cursor.impl Cursor.impl_advanceReturnsOk
      c.toOver (PartitionedCursor.reachable_toOver st c hc)
    cases c with
    | mk d cur dir ok =>
      refine ⟨h1 hok, ?_, ?_, ?_⟩
      · rw [PartitionedCursor.current, PartitionedCursor.currentCursor]
      · rw [PartitionedCursor.currKey, PartitionedCursor.currentCursor]
      · rw [PartitionedCursor.currPK, PartitionedCursor.currentCursor]
  · refine ⟨fun s => rfl, ?_, rfl, rfl⟩
    exact PartitionedOver.Reachable.advanced _
      (PartitionedOver.Reachable.advanced _
        (PartitionedOver.Reachable.constructed sampleParent [true, false, true] 1))

/-- C19, at a concrete input: the cursor the factory returns for the
namespace t, after one advance(), on the last row of partition 0. -/
theorem active_implies_sub_cursor_ok_witness :
    PartitionedCursor.Reachable sampleStorage sampleActive.advance.1 ∧
    sampleActive.advance.1.ok = true ∧
    sampleActive.advance.1.currentCursor.ok = true ∧
    sampleActive.advance.1.currKey = [⟨"", BSONValue.number 7⟩] :=
  ⟨PartitionedCursor.Reachable.advanced _
      (PartitionedCursor.Reachable.made sampleParent 1 sampleActive make_sampleParent),
    rfl,
    (active_implies_sub_cursor_ok.2.1 sampleStorage sampleActive.advance.1
      (PartitionedCursor.Reachable.advanced _
        (PartitionedCursor.Reachable.made sampleParent 1 sampleActive make_sampleParent))
      rfl).1,
    rfl⟩

/-- Once a cursor variant of the factory reports ok() false, it reports
false after advance() too: the modelled null and index cursors and the
partitioned cursor do not come back. -/
theorem Cursor.advance_not_ok (c : Cursor) (h : c.ok = false) : (Cursor.advance c).1.ok = false := by
  cases c with
  | dummy c => rfl
  | basic c =>
    have hp : c.pending = [] := by
      simpa [Cursor.ok, IndexCursor.ok] using h
    simp [Cursor.advance, Cursor.ok, IndexCursor.advance, IndexCursor.ok, hp]
  | partitioned c =>
    have h1 : c.ok = false := h
    rw [Cursor.advance, PartitionedCursor.advance_eq]
    simp [Cursor.ok, PartitionedCursor.ok_mk, h1]

/-- With the cursor variants of the factory as sub-cursors, ok() of a
partitioned cursor equals ok() of its sub-cursor in every reachable state. -/
theorem PartitionedCursor.reachable_ok_eq (st : Storage) (c : PartitionedCursor)
    (hc : PartitionedCursor.Reachable st c) : c.ok = c.currentCursor.ok := by
  induction hc with
  | made d direction c h =>
    obtain ⟨sub, rfl⟩ := BasicCursor.make_partitioned_inv st d direction c h
    rfl
  | advanced c _ ih =>
    rw [PartitionedCursor.advance_eq]
    have h1 : (Cursor.advance c.currentCursor).2 = (Cursor.advance c.currentCursor).1.ok :=
      Cursor.impl_advanceReturnsOk c.currentCursor
    show (c.ok && (Cursor.advance c.currentCursor).2) = (Cursor.advance c.currentCursor).1.ok
    rw [h1]
    cases hok : c.ok with
    | true => simp
    | false =>
      rw [hok] at ih
      simp [Cursor.advance_not_ok c.currentCursor ih.symm]
  | tailableSet c _ ih => exact ih
  | matcherSet c m _ ih => exact ih
  | keyFieldsOnlySet c p _ ih => exact ih
  | dupAsked c pk _ ih => exact ih

end mongo
